import Mathlib

/-
Formal model of `generate.py`, a script that scans a directory of MP3
files, extracts per-file metadata (title, date, comment, cover art) and
emits a podcast RSS feed (`feed.xml`).

The Python source is embedded shallowly: pure string/date transformations
become Lean functions, filesystem and subprocess effects are recorded as an
explicit event trace, and Python exceptions become `Except` values.
-/

/-! ## Basic string helpers -/

/-- The curly (right single quotation mark) apostrophe, U+2019. -/
def curlyApos : Char := Char.ofNat 8217

/-- The straight ASCII apostrophe, U+0027. -/
def straightApos : Char := Char.ofNat 39

/-- Model of `clean_apostrophes` (generate.py line 34): replace every curly
apostrophe with a straight one.  Python's `str.replace` on a single
character is a character map. -/
def clean_apostrophes (s : String) : String :=
  ⟨s.data.map (fun c => if c = curlyApos then straightApos else c)⟩

/-- Model of `os.path.splitext(...)[0]`: everything before the last dot,
except that a basename consisting only of leading dots before that dot is
not split. -/
def splitextBase (s : String) : String :=
  let cs := s.data
  let dotIdxs := (List.range cs.length).filter (fun i => cs.getD i ' ' = '.')
  match dotIdxs.getLast? with
  | none => s
  | some i => if (cs.take i).all (fun c => c = '.') then s else ⟨cs.take i⟩

/-- Characters Python's `urllib.parse.quote` leaves unescaped with the
default `safe='/'`: ASCII alphanumerics, `_`, `.`, `-`, `~` and `/`. -/
def isSafeChar (c : Char) : Bool :=
  c.isAlphanum || c = '_' || c = '.' || c = Char.ofNat 45 || c = '~' || c = '/'

/-- UTF-8 bytes of a Unicode code point, as natural numbers. -/
def utf8Bytes (n : Nat) : List Nat :=
  if n < 128 then [n]
  else if n < 2048 then [192 + n / 64, 128 + n % 64]
  else if n < 65536 then [224 + n / 4096, 128 + n / 64 % 64, 128 + n % 64]
  else [240 + n / 262144, 128 + n / 4096 % 64, 128 + n / 64 % 64, 128 + n % 64]

/-- Uppercase hexadecimal digit, as used by `urllib.parse.quote`. -/
def hexDigitU (n : Nat) : Char :=
  if n < 10 then Char.ofNat (48 + n) else Char.ofNat (55 + n)

/-- Percent-encoding of a single byte: `%XY` with uppercase hex. -/
def pctEncode (b : Nat) : List Char :=
  ['%', hexDigitU (b / 16), hexDigitU (b % 16)]

/-- Encoding of a single character under `urllib.parse.quote`. -/
def quoteChar (c : Char) : List Char :=
  if isSafeChar c then [c] else (utf8Bytes c.toNat).flatMap pctEncode

/-- Model of Python's `urllib.parse.quote(s)` with the default `safe='/'`:
safe characters pass through, all others are percent-encoded byte-wise in
UTF-8 with uppercase hex digits. -/
def pyQuote (s : String) : String := ⟨s.data.flatMap quoteChar⟩

/-- Python string comparison on a pair of character lists: lexicographic by
Unicode code point. -/
def charsLt : List Char → List Char → Bool
  | [], [] => false
  | [], _ :: _ => true
  | _ :: _, [] => false
  | a :: as, b :: bs =>
    if a.toNat < b.toNat then true
    else if b.toNat < a.toNat then false
    else charsLt as bs

/-- Python `<` on strings: lexicographic by code point. -/
def pyStrLt (a b : String) : Bool := charsLt a.data b.data

/-! ## Dates: `datetime.strptime(s, "%Y-%m-%d")` and
`strftime("%a, %d %b %Y %H:%M:%S %z")` -/

/-- A Python `datetime` value (naive: the script never attaches a
timezone, so `%z` formats as the empty string). -/
structure PyDateTime where
  y : Nat
  m : Nat
  d : Nat
  hh : Nat
  mm : Nat
  ss : Nat
  deriving DecidableEq, Repr

/-- Gregorian leap-year test, as in Python's `calendar`/`datetime`. -/
def isLeap (y : Nat) : Bool := (y % 4 = 0 && y % 100 ≠ 0) || y % 400 = 0

/-- Days in a month of the proleptic Gregorian calendar. -/
def daysInMonth (y m : Nat) : Nat :=
  if m = 2 then (if isLeap y then 29 else 28)
  else if m = 4 || m = 6 || m = 9 || m = 11 then 30
  else 31

/-- Split a character list at every dash, keeping empty segments. -/
def splitDash : List Char → List (List Char)
  | [] => [[]]
  | c :: rest =>
    let r := splitDash rest
    if c = '-' then [] :: r
    else
      match r with
      | h :: t => (c :: h) :: t
      | [] => [[c]]

/-- Numeric value of a list of decimal digit characters. -/
def natOfDigits (cs : List Char) : Nat :=
  cs.foldl (fun a c => a * 10 + (c.toNat - 48)) 0

/-- CPython `_strptime` month pattern `(1[0-2]|0[1-9]|[1-9])`: one or two
digits, value 1..12; a leading zero is optional. -/
def validMonthPart (cs : List Char) : Bool :=
  match cs with
  | [c] => 49 ≤ c.toNat && c.toNat ≤ 57
  | [a, b] =>
    (a = '1' && 48 ≤ b.toNat && b.toNat ≤ 50) ||
    (a = '0' && 49 ≤ b.toNat && b.toNat ≤ 57)
  | _ => false

/-- CPython `_strptime` day pattern `(3[01]|[12]\d|0[1-9]|[1-9])`: one or
two digits, value 1..31; a leading zero is optional. -/
def validDayPart (cs : List Char) : Bool :=
  match cs with
  | [c] => 49 ≤ c.toNat && c.toNat ≤ 57
  | [a, b] =>
    (a = '3' && (b = '0' || b = '1')) ||
    ((a = '1' || a = '2') && b.isDigit) ||
    (a = '0' && 49 ≤ b.toNat && b.toNat ≤ 57)
  | _ => false

/-- Model of `datetime.strptime(s, "%Y-%m-%d")` (generate.py line 106).
CPython matches `%Y` as exactly four digits and `%m`/`%d` as one- or
two-digit values in range (the documented optional leading zero), requires
the whole string to match, and then validates the day against the calendar
via the `datetime` constructor (which also rejects year 0).  On success the
result is a naive midnight datetime; on failure `none` (a `ValueError`). -/
def strptimeYmd (s : String) : Option PyDateTime :=
  match splitDash s.data with
  | [ys, ms, ds] =>
    if ys.length = 4 && ys.all Char.isDigit && validMonthPart ms && validDayPart ds then
      let y := natOfDigits ys
      let m := natOfDigits ms
      let d := natOfDigits ds
      if 1 ≤ y && d ≤ daysInMonth y m then some ⟨y, m, d, 0, 0, 0⟩
      else none
    else none
  | _ => none

/-- Zeller's congruence for the proleptic Gregorian calendar:
`0 = Saturday, 1 = Sunday, ..., 6 = Friday`. -/
def zeller (y m d : Nat) : Nat :=
  let Y := if m < 3 then y - 1 else y
  let M := if m < 3 then m + 12 else m
  let K := Y % 100
  let J := Y / 100
  (d + (13 * (M + 1)) / 5 + K + K / 4 + J / 4 + 5 * J) % 7

/-- `%a`: abbreviated weekday name, indexed by the Zeller value. -/
def weekdayName (h : Nat) : String :=
  ["Sat", "Sun", "Mon", "Tue", "Wed", "Thu", "Fri"].getD h ""

/-- `%b`: abbreviated month name. -/
def monthAbbrev (m : Nat) : String :=
  ["", "Jan", "Feb", "Mar", "Apr", "May", "Jun", "Jul", "Aug", "Sep",
   "Oct", "Nov", "Dec"].getD m ""

/-- Zero-padded two-digit field. -/
def pad2 (n : Nat) : String := if n < 10 then "0" ++ toString n else toString n

/-- The part of `strftime("%a, %d %b %Y %H:%M:%S %z")` before the final
space: `Day, DD Mon YYYY HH:MM:SS`. -/
def strftimePrefix (dt : PyDateTime) : String :=
  weekdayName (zeller dt.y dt.m dt.d) ++ ", " ++ pad2 dt.d ++ " " ++
    monthAbbrev dt.m ++ " " ++ toString dt.y ++ " " ++ pad2 dt.hh ++ ":" ++
    pad2 dt.mm ++ ":" ++ pad2 dt.ss

/-- Model of `pub_dt.strftime("%a, %d %b %Y %H:%M:%S %z")` (generate.py
line 113).  The datetimes produced by the script are naive, so `%z`
renders as the empty string and the result ends with the space that
precedes it in the format. -/
def strftimeFmt (dt : PyDateTime) : String := strftimePrefix dt ++ " "

/-! ## Effects: an explicit trace of filesystem, subprocess and logging
operations performed by the script -/

/-- Severity levels of the `logging` calls in the script. -/
inductive LogLevel
  | info
  | warning
  | error
  deriving DecidableEq, Repr

/-- Observable side effects of a run, in program order. -/
inductive Event
  | rename (old new : String)
  | readTags (name : String)
  | existsCheck (path : String)
  | makeDirs (path : String)
  | writeTemp (path : String)
  | runFfmpeg (input output : String)
  | removeTemp (path : String)
  | log (lvl : LogLevel) (msg : String)
  | writeFeed (path : String)
  deriving DecidableEq, Repr

/-- Is an event a file rename? -/
def isRenameEv : Event → Bool
  | .rename _ _ => true
  | _ => false

/-- Is an event a warning-level log entry? -/
def isWarnEv : Event → Bool
  | .log .warning _ => true
  | _ => false

/-- Is an event an error-level log entry? -/
def isErrEv : Event → Bool
  | .log .error _ => true
  | _ => false

/-! ## Cover resolution: `ensure_cover` (generate.py lines 39-83) -/

/-- Outcome of the `ffmpeg` subprocess invocation:
success, exit with non-zero status (`CalledProcessError`), or the
executable being absent (`FileNotFoundError`, which `except
subprocess.CalledProcessError` does not catch). -/
inductive FfmpegOutcome
  | success
  | nonzeroExit
  | absent
  deriving DecidableEq, Repr

/-- Environment `ensure_cover` runs against: whether `ID3(mp3_path)`
opens without a `mutagen.id3.error`, the `type` discriminators of the
file's embedded APIC frames in tag order, whether `<base>.jpg` already
exists in the cache directory, and how the `ffmpeg` subprocess behaves. -/
structure CoverEnv where
  id3Ok : Bool
  apicTypes : List Nat
  coverExists : Bool
  ffmpeg : FfmpegOutcome
  deriving DecidableEq, Repr

/-- Model of `ensure_cover(mp3_path, cover_dir)`.  Returns the event
trace and either the optional cover file name, or `Except.error` when an
exception escapes the function (the uncaught `FileNotFoundError` raised
by `subprocess.run` when `ffmpeg` is absent). -/
def ensure_cover (env : CoverEnv) (mp3Name coverDir : String) :
    List Event × Except Unit (Option String) :=
  let readEv := Event.readTags mp3Name
  if !env.id3Ok then
    ([readEv, .log .error ("ID3 error for " ++ mp3Name)], .ok none)
  else
    let base := splitextBase mp3Name
    let coverName := base ++ ".jpg"
    let coverPath := coverDir ++ "/" ++ coverName
    let checkEv := Event.existsCheck coverPath
    if env.coverExists then
      ([readEv, checkEv], .ok (some coverName))
    else if env.apicTypes.contains 3 then
      let tempPath := coverDir ++ "/" ++ base ++ "_tmp"
      let pre := [readEv, checkEv, .makeDirs coverDir, .writeTemp tempPath,
                  .runFfmpeg tempPath coverPath]
      match env.ffmpeg with
      | .success =>
        (pre ++ [.removeTemp tempPath,
                 .log .info ("Extracted and resized cover for " ++ mp3Name)],
         .ok (some coverName))
      | .nonzeroExit =>
        (pre ++ [.log .error ("ffmpeg error for " ++ mp3Name)], .ok none)
      | .absent => (pre, .error ())
    else
      ([readEv, checkEv, .log .warning ("No APIC cover found in " ++ mp3Name)],
       .ok none)

/-! ## Per-file metadata: `get_episode_info` (generate.py lines 86-126) -/

/-- The `EasyID3` view of a file's tags: `title`, `date` and `comment`
values (first entry of each frame), `none` when the frame is absent. -/
structure EasyTags where
  title : Option String
  date : Option String
  comment : Option String
  deriving DecidableEq, Repr

/-- One audio file of the input directory together with everything the
filesystem and tag container determine about its processing: its on-disk
name, whether `EasyID3`/`ID3` open without raising (corrupt container),
its tag values, its APIC frame types, whether its cover is already
cached, the ffmpeg behavior for it, and its byte size on disk (`none`
when `os.path.getsize` raises `OSError`). -/
structure AudioFile where
  name : String
  tagsOk : Bool
  easy : EasyTags
  apicTypes : List Nat
  coverExists : Bool
  ffmpeg : FfmpegOutcome
  size : Option Nat
  deriving DecidableEq, Repr

/-- The cover environment seen by `ensure_cover` for a given file. -/
def coverEnvOf (f : AudioFile) : CoverEnv :=
  { id3Ok := f.tagsOk, apicTypes := f.apicTypes,
    coverExists := f.coverExists, ffmpeg := f.ffmpeg }

/-- Exceptions that can escape per-file processing: `EasyID3`/`ID3`
raising on a corrupt tag container, or the `FileNotFoundError` from a
missing `ffmpeg` executable. -/
inductive RunError
  | tagOpen
  | ffmpegMissing
  deriving DecidableEq, Repr

/-- The dictionary returned by `get_episode_info` (generate.py lines
118-126).  `size` stands for the file at `file_path` as the later
`os.path.getsize` call sees it. -/
structure Episode where
  title : String
  filename : String
  link : String
  pubDate : String
  description : String
  cover : Option String
  size : Option Nat
  deriving DecidableEq, Repr

/-- Model of the date logic of `get_episode_info` (generate.py lines
103-113): a present, non-empty date tag is parsed with
`strptime("%Y-%m-%d")`; on `ValueError` the current time is used with a
warning; an absent or empty (falsy) tag also falls back to the current
time with a warning.  Returns the formatted `pubDate` string and the log
events. -/
def derivePubDate : Option String → PyDateTime → String → String × List Event
  | some s, now, cleanName =>
    if s ≠ "" then
      match strptimeYmd s with
      | some dt => (strftimeFmt dt, [])
      | none =>
        (strftimeFmt now,
         [.log .warning ("Invalid date tag in " ++ cleanName ++ ", using now.")])
    else
      (strftimeFmt now,
       [.log .warning ("Missing date tag in " ++ cleanName ++ ", using now.")])
  | none, now, cleanName =>
    (strftimeFmt now,
     [.log .warning ("Missing date tag in " ++ cleanName ++ ", using now.")])

/-- The rename step at the top of `get_episode_info` (generate.py lines
88-94): if normalizing the name changes it, the file is renamed on disk
and an info log entry is written; otherwise nothing happens. -/
def renameEvsOf (f : AudioFile) : List Event :=
  if f.name = clean_apostrophes f.name then []
  else [Event.rename f.name (clean_apostrophes f.name),
        Event.log .info ("Renamed file " ++ f.name ++ " -> " ++
          clean_apostrophes f.name)]

/-- Model of `get_episode_info(mp3_path, base_url, cover_dir)`.  The
file name is normalized first; if it changes, the file is renamed on disk
(one `Event.rename`) before the tag container is opened.  Opening
`EasyID3`/`ID3` on a corrupt container raises (`Except.error .tagOpen`);
otherwise title, link, publish date and comment are derived and
`ensure_cover` is consulted, whose uncaught `FileNotFoundError`
propagates (`Except.error .ffmpegMissing`). -/
def get_episode_info (f : AudioFile) (baseUrl coverDir : String)
    (now : PyDateTime) : List Event × Except RunError Episode :=
  let cleanName := clean_apostrophes f.name
  if !f.tagsOk then
    (renameEvsOf f ++ [Event.readTags cleanName], .error .tagOpen)
  else
    let title := clean_apostrophes (f.easy.title.getD (splitextBase cleanName))
    let url := baseUrl ++ pyQuote cleanName
    let pd := derivePubDate f.easy.date now cleanName
    let comment := f.easy.comment.getD ""
    let cov := ensure_cover (coverEnvOf f) cleanName coverDir
    (renameEvsOf f ++ [Event.readTags cleanName] ++ pd.2 ++ cov.1,
     match cov.2 with
     | .error _ => .error .ffmpegMissing
     | .ok cover =>
       .ok { title := title, filename := cleanName, link := url,
             pubDate := pd.1, description := comment, cover := cover,
             size := f.size })

/-! ## Feed assembly: `build_feed` (generate.py lines 129-184) -/

/-- Channel-level configuration constants of the script. -/
def PODCAST_LINK : String := "https://0819870.xyz/music/nash-spence/"

/-- Name of the per-directory cover cache subdirectory. -/
def EPISODE_ART_DIR : String := "covers"

/-- One emitted `<item>` element of the feed. -/
structure Item where
  title : String
  author : String
  link : String
  enclosureUrl : String
  enclosureLength : Nat
  enclosureType : String
  guid : String
  pubDate : String
  description : String
  coverUrl : Option String
  deriving DecidableEq, Repr

/-- Model of the per-episode item emission (generate.py lines 153-179):
the enclosure URL is the base link plus the percent-encoded file name,
the length is the file's size on disk or `0` with a warning when
`os.path.getsize` raises, the type is fixed, and the guid text is the
enclosure URL. -/
def mkItem (ep : Episode) : Item × List Event :=
  let sizePair : Nat × List Event :=
    match ep.size with
    | some n => (n, [])
    | none =>
      (0, [Event.log .warning ("Could not get file size for " ++ ep.filename)])
  let enclosureUrl := PODCAST_LINK ++ pyQuote ep.filename
  ({ title := ep.title, author := "Nash Spence", link := ep.link,
     enclosureUrl := enclosureUrl, enclosureLength := sizePair.1,
     enclosureType := "audio/mpeg", guid := enclosureUrl,
     pubDate := ep.pubDate, description := ep.description,
     coverUrl := ep.cover.map
       (fun c => PODCAST_LINK ++ EPISODE_ART_DIR ++ "/" ++ c) },
   sizePair.2)

/-- Lowercasing of one character, as Python's `str.lower` acts on the
ASCII range relevant to file extensions. -/
def lowerChar (c : Char) : Char :=
  if 65 ≤ c.toNat && c.toNat ≤ 90 then Char.ofNat (c.toNat + 32) else c

/-- Does a file name pass the `f.lower().endswith(".mp3")` filter of
`build_feed` (generate.py line 143)?  The lowercased name must end in
`.mp3`, checked on the character list from the right. -/
def isMp3Name (s : String) : Bool :=
  match (s.data.map lowerChar).reverse with
  | c3 :: c2 :: c1 :: c0 :: _ => c3 = '3' && c2 = 'p' && c1 = 'm' && c0 = '.'
  | _ => false

/-- The per-file loop of `build_feed` (generate.py lines 146-149): each
file in listing order goes through `get_episode_info`; an exception there
aborts the whole loop and propagates. -/
def processFiles (files : List AudioFile) (coverDir : String)
    (now : PyDateTime) : List Event × Except RunError (List Episode) :=
  match files with
  | [] => ([], .ok [])
  | f :: rest =>
    let r := get_episode_info f PODCAST_LINK coverDir now
    match r.2 with
    | .error e => (r.1, .error e)
    | .ok ep =>
      let r2 := processFiles rest coverDir now
      match r2.2 with
      | .error e => (r.1 ++ r2.1, .error e)
      | .ok eps => (r.1 ++ r2.1, .ok (ep :: eps))

/-- Python's stable ascending insertion by the `pubDate` string key: the
element is placed before the first strictly greater key. -/
def insertByPubDate (ep : Episode) : List Episode → List Episode
  | [] => [ep]
  | b :: bs =>
    if pyStrLt ep.pubDate b.pubDate then ep :: b :: bs
    else b :: insertByPubDate ep bs

/-- Model of `episodes.sort(key=lambda x: x[0])` (generate.py line 151):
a stable ascending sort by the formatted publish-date string, compared as
Python compares strings (lexicographic by code point). -/
def sortByPubDate (eps : List Episode) : List Episode :=
  eps.foldl (fun acc e => insertByPubDate e acc) []

/-- Model of `build_feed(directory)`: filter the directory listing to
`.mp3` files, process each one, sort the episodes ascending by formatted
publish-date string, emit the items, and only then write `feed.xml`.  An
exception from any per-file step propagates, in which case no feed file
is written. -/
def build_feed (files : List AudioFile) (directory : String)
    (now : PyDateTime) : List Event × Except RunError (List Item) :=
  let coverDir := directory ++ "/" ++ EPISODE_ART_DIR
  let mp3s := files.filter (fun f => isMp3Name f.name)
  let pr := processFiles mp3s coverDir now
  match pr.2 with
  | .error e => (pr.1, .error e)
  | .ok eps =>
    let sorted := sortByPubDate eps
    let itemPairs := sorted.map mkItem
    let items := itemPairs.map Prod.fst
    let itemEvs := (itemPairs.map Prod.snd).flatten
    let outPath := directory ++ "/feed.xml"
    (pr.1 ++ itemEvs ++
       [Event.writeFeed outPath, Event.log .info ("Wrote feed to " ++ outPath)],
     .ok items)

/-! ## Miscellaneous observation functions -/

/-- Does a string end in a numeric timezone-offset field `±ZZZZ` (a sign
followed by four digits, read from the right)? -/
def endsWithNumOffset (s : String) : Bool :=
  match s.data.reverse with
  | [] => false
  | last :: rest =>
    last.isDigit &&
      (match rest with
       | d2 :: d3 :: d4 :: sgn :: _ =>
         d2.isDigit && d3.isDigit && d4.isDigit && (sgn = '+' || sgn = '-')
       | _ => false)

/-! ## Concrete fixtures (the spec's running example and small variants) -/

/-- A fixed wall-clock instant standing for `datetime.now()`. -/
def now0 : PyDateTime := ⟨2025, 1, 1, 0, 0, 0⟩

/-- The spec's example file `Song.mp3`: title "Song", date `2023-05-01`
(a Monday), comment "first track". -/
def songFile : AudioFile :=
  { name := "Song.mp3", tagsOk := true,
    easy := { title := some "Song", date := some "2023-05-01",
              comment := some "first track" },
    apicTypes := [], coverExists := false, ffmpeg := .success,
    size := some 123 }

/-- The spec's example file `Other.mp3`: no title tag, date `2023-04-01`
(a Saturday). -/
def otherFile : AudioFile :=
  { name := "Other.mp3", tagsOk := true,
    easy := { title := none, date := some "2023-04-01", comment := none },
    apicTypes := [], coverExists := false, ffmpeg := .success,
    size := some 456 }

/-- A file whose tag container cannot be opened (`EasyID3` raises). -/
def corruptFile : AudioFile :=
  { name := "Bad.mp3", tagsOk := false,
    easy := { title := none, date := none, comment := none },
    apicTypes := [], coverExists := false, ffmpeg := .success,
    size := some 7 }

/-- A file with no date tag at all. -/
def noDateFile : AudioFile :=
  { name := "NoDate.mp3", tagsOk := true,
    easy := { title := none, date := none, comment := none },
    apicTypes := [], coverExists := false, ffmpeg := .success,
    size := some 5 }

/-- A file whose name contains a curly apostrophe. -/
def curlyFile : AudioFile :=
  { name := "It’s.mp3", tagsOk := true,
    easy := { title := none, date := some "2023-05-01", comment := none },
    apicTypes := [], coverExists := false, ffmpeg := .success,
    size := some 10 }

/-- The feed item `build_feed` emits for `songFile`. -/
def songItem : Item :=
  { title := "Song", author := "Nash Spence",
    link := "https://0819870.xyz/music/nash-spence/Song.mp3",
    enclosureUrl := "https://0819870.xyz/music/nash-spence/Song.mp3",
    enclosureLength := 123, enclosureType := "audio/mpeg",
    guid := "https://0819870.xyz/music/nash-spence/Song.mp3",
    pubDate := "Mon, 01 May 2023 00:00:00 ",
    description := "first track", coverUrl := none }

/-! ## Helper lemmas -/

theorem string_append_data (a b : String) : (a ++ b).data = a.data ++ b.data := by
  cases a
  cases b
  rfl

theorem strftimeFmt_data (dt : PyDateTime) :
    (strftimeFmt dt).data = (strftimePrefix dt).data ++ [' '] := by
  rw [strftimeFmt, string_append_data]

theorem endsWithNumOffset_strftimeFmt (dt : PyDateTime) :
    endsWithNumOffset (strftimeFmt dt) = false := by
  rw [endsWithNumOffset, strftimeFmt_data]
  simp [List.reverse_append, Char.isDigit]

theorem strftimeFmt_ne_empty (dt : PyDateTime) : strftimeFmt dt ≠ "" := by
  intro h
  have h2 : (strftimeFmt dt).data = ([] : List Char) := by rw [h]
  rw [strftimeFmt_data] at h2
  simp at h2

theorem ensure_cover_ok (env : CoverEnv) (name dir : String)
    (h : env.ffmpeg ≠ .absent) :
    ∃ c, (ensure_cover env name dir).2 = .ok c := by
  cases hid : env.id3Ok
  · exact ⟨none, by simp [ensure_cover, hid]⟩
  · cases hex : env.coverExists
    · by_cases hap : 3 ∈ env.apicTypes
      · cases hff : env.ffmpeg
        · exact ⟨some (splitextBase name ++ ".jpg"), by simp [ensure_cover, hid, hex, hap, hff]⟩
        · exact ⟨none, by simp [ensure_cover, hid, hex, hap, hff]⟩
        · exact absurd hff h
      · exact ⟨none, by simp [ensure_cover, hid, hex, hap]⟩
    · exact ⟨some (splitextBase name ++ ".jpg"), by simp [ensure_cover, hid, hex]⟩

theorem ensure_cover_no_writeFeed (env : CoverEnv) (name dir : String)
    (p : String) : Event.writeFeed p ∉ (ensure_cover env name dir).1 := by
  cases hid : env.id3Ok
  · simp [ensure_cover, hid]
  · cases hex : env.coverExists
    · by_cases hap : 3 ∈ env.apicTypes
      · cases hff : env.ffmpeg
        all_goals simp [ensure_cover, hid, hex, hap, hff]
      · simp [ensure_cover, hid, hex, hap]
    · simp [ensure_cover, hid, hex]

theorem ensure_cover_no_rename (env : CoverEnv) (name dir : String) :
    (ensure_cover env name dir).1.countP isRenameEv = 0 := by
  cases hid : env.id3Ok
  · simp [ensure_cover, hid, isRenameEv, List.countP_cons]
  · cases hex : env.coverExists
    · by_cases hap : 3 ∈ env.apicTypes
      · cases hff : env.ffmpeg
        all_goals simp [ensure_cover, hid, hex, hap, hff, isRenameEv, List.countP_cons]
      · simp [ensure_cover, hid, hex, hap, isRenameEv, List.countP_cons]
    · simp [ensure_cover, hid, hex, isRenameEv, List.countP_cons]

theorem derivePubDate_no_writeFeed (tag : Option String) (now : PyDateTime)
    (n p : String) : Event.writeFeed p ∉ (derivePubDate tag now n).2 := by
  rcases tag with _ | s
  · simp [derivePubDate]
  · by_cases hs : s = ""
    · simp [derivePubDate, hs]
    · rcases hp : strptimeYmd s with _ | dt
      all_goals simp [derivePubDate, hs, hp]

theorem derivePubDate_no_rename (tag : Option String) (now : PyDateTime)
    (n : String) : (derivePubDate tag now n).2.countP isRenameEv = 0 := by
  rcases tag with _ | s
  · simp [derivePubDate, isRenameEv, List.countP_cons]
  · by_cases hs : s = ""
    · simp [derivePubDate, hs, isRenameEv, List.countP_cons]
    · rcases hp : strptimeYmd s with _ | dt
      all_goals simp [derivePubDate, hs, hp, isRenameEv, List.countP_cons]

theorem renameEvsOf_no_writeFeed (f : AudioFile) (p : String) :
    Event.writeFeed p ∉ renameEvsOf f := by
  unfold renameEvsOf
  split
  · simp
  · simp

theorem renameEvsOf_of_ne (f : AudioFile)
    (h : f.name ≠ clean_apostrophes f.name) :
    renameEvsOf f = [Event.rename f.name (clean_apostrophes f.name),
      Event.log .info ("Renamed file " ++ f.name ++ " -> " ++
        clean_apostrophes f.name)] := by
  unfold renameEvsOf
  rw [if_neg h]

theorem get_episode_info_err (f : AudioFile) (b d : String) (now : PyDateTime)
    (h : f.tagsOk = false) :
    (get_episode_info f b d now).2 = .error .tagOpen := by
  simp [get_episode_info, h]

theorem get_episode_info_no_writeFeed (f : AudioFile) (b d : String)
    (now : PyDateTime) (p : String) :
    Event.writeFeed p ∉ (get_episode_info f b d now).1 := by
  cases ht : f.tagsOk
  · simp only [get_episode_info, ht, Bool.not_false, if_true, List.mem_append,
      List.mem_singleton]
    rintro (hmem | hmem)
    · exact renameEvsOf_no_writeFeed f p hmem
    · cases hmem
  · simp only [get_episode_info, ht, Bool.not_true, Bool.false_eq_true,
      if_false, List.append_assoc, List.mem_append, List.mem_singleton]
    rintro (hmem | hmem | hmem | hmem)
    · exact renameEvsOf_no_writeFeed f p hmem
    · cases hmem
    · exact derivePubDate_no_writeFeed f.easy.date now (clean_apostrophes f.name) p hmem
    · exact ensure_cover_no_writeFeed (coverEnvOf f) (clean_apostrophes f.name) d p hmem

theorem processFiles_no_writeFeed (files : List AudioFile) (d : String)
    (now : PyDateTime) (p : String) :
    Event.writeFeed p ∉ (processFiles files d now).1 := by
  induction files with
  | nil => simp [processFiles]
  | cons f rest ih =>
    rcases h1 : (get_episode_info f PODCAST_LINK d now).2 with e | ep
    · simp only [processFiles, h1]
      exact get_episode_info_no_writeFeed f PODCAST_LINK d now p
    · rcases h2 : (processFiles rest d now).2 with e2 | eps
      all_goals simp only [processFiles, h1, h2, List.mem_append]
      all_goals rintro (hmem | hmem)
      · exact get_episode_info_no_writeFeed f PODCAST_LINK d now p hmem
      · exact ih hmem
      · exact get_episode_info_no_writeFeed f PODCAST_LINK d now p hmem
      · exact ih hmem

theorem processFiles_err (files : List AudioFile) (d : String)
    (now : PyDateTime) (f : AudioFile) (hf : f ∈ files)
    (hbad : f.tagsOk = false) :
    ∃ e, (processFiles files d now).2 = .error e := by
  revert hf
  induction files with
  | nil => intro hf; cases hf
  | cons g rest ih =>
    intro hf
    rcases h1 : (get_episode_info g PODCAST_LINK d now).2 with e | ep
    · exact ⟨e, by simp [processFiles, h1]⟩
    · rcases List.mem_cons.mp hf with hfg | hfr
      · rw [get_episode_info_err g PODCAST_LINK d now (hfg ▸ hbad)] at h1
        cases h1
      · obtain ⟨e2, h2⟩ := ih hfr
        exact ⟨e2, by simp [processFiles, h1, h2]⟩

theorem clean_map_ne (l : List Char) (h : curlyApos ∈ l) :
    l.map (fun c => if c = curlyApos then straightApos else c) ≠ l := by
  induction l with
  | nil => cases h
  | cons a as ih =>
    intro heq
    simp only [List.map_cons, List.cons.injEq] at heq
    rcases List.mem_cons.mp h with ha | ha
    · rw [← ha] at heq
      have h1 := heq.1
      rw [if_pos rfl] at h1
      exact absurd h1 (by decide)
    · exact ih ha heq.2

theorem name_ne_clean_of_curly (s : String) (h : curlyApos ∈ s.data) :
    s ≠ clean_apostrophes s := by
  intro heq
  have h2 : s.data = s.data.map (fun c => if c = curlyApos then straightApos else c) :=
    congrArg String.data heq
  exact clean_map_ne s.data h h2.symm

theorem mkItem_guid (ep : Episode) : (mkItem ep).1.guid = (mkItem ep).1.enclosureUrl := rfl

theorem mkItem_type (ep : Episode) : (mkItem ep).1.enclosureType = "audio/mpeg" := rfl

theorem mkItem_url (ep : Episode) :
    (mkItem ep).1.enclosureUrl = PODCAST_LINK ++ pyQuote ep.filename := rfl

theorem mkItem_length (ep : Episode) :
    ((∃ n, ep.size = some n ∧ (mkItem ep).1.enclosureLength = n) ∨
     (ep.size = none ∧ (mkItem ep).1.enclosureLength = 0 ∧
      (mkItem ep).2 =
        [Event.log .warning ("Could not get file size for " ++ ep.filename)])) := by
  rcases hs : ep.size with _ | n
  · right
    exact ⟨rfl, by simp [mkItem, hs], by simp [mkItem, hs]⟩
  · left
    exact ⟨n, rfl, by simp [mkItem, hs]⟩

/-! ## Claim C1 -/

/-- C1 (counterexample): sorting feed items by the formatted publish-date
string is NOT consistent with chronological order, because the string
begins with the abbreviated weekday name.  On the spec's own example —
`Other.mp3` dated 2023-04-01 (a Saturday) and `Song.mp3` dated 2023-05-01
(a Monday) — the feed lists `Song.mp3`'s entry first, since
`"Mon, 01 May 2023 ..." < "Sat, 01 Apr 2023 ..."` lexicographically,
contradicting the claim that the entry for 2023-04-01 appears before the
entry for 2023-05-01. -/
theorem C1_counterexample :
    ((build_feed [otherFile, songFile] "/music" now0).2.toOption.map
        (fun its => its.map Item.title) = some ["Song", "Other"]) ∧
    ((build_feed [otherFile, songFile] "/music" now0).2.toOption.map
        (fun its => its.map Item.pubDate) =
      some ["Mon, 01 May 2023 00:00:00 ", "Sat, 01 Apr 2023 00:00:00 "]) ∧
    strptimeYmd "2023-04-01" = some ⟨2023, 4, 1, 0, 0, 0⟩ ∧
    strptimeYmd "2023-05-01" = some ⟨2023, 5, 1, 0, 0, 0⟩ :=
  ⟨rfl, rfl, rfl, rfl⟩

/-- C1 (amended): the feed is ordered by lexicographic comparison of the
formatted publish-date strings, which compare by weekday name first and
therefore do not follow chronological order; in the spec's example the
entry dated 2023-05-01 (`Song.mp3`) precedes the entry dated 2023-04-01
(`Other.mp3`) regardless of directory listing order. -/
theorem C1_amended_thm :
    ((build_feed [otherFile, songFile] "/music" now0).2.toOption.map
        (fun its => its.map Item.title) = some ["Song", "Other"]) ∧
    ((build_feed [songFile, otherFile] "/music" now0).2.toOption.map
        (fun its => its.map Item.title) = some ["Song", "Other"]) ∧
    pyStrLt (strftimeFmt ⟨2023, 5, 1, 0, 0, 0⟩)
      (strftimeFmt ⟨2023, 4, 1, 0, 0, 0⟩) = true :=
  ⟨rfl, rfl, rfl⟩

/-! ## Claim C2 -/

/-- C2 (counterexample): a file whose tag container cannot be opened is
NOT merely skipped.  With `Other.mp3` healthy and `Bad.mp3` corrupt, the
whole run raises (`EasyID3` in `get_episode_info` has no handler), no feed
is written, and the healthy file produces no entry either. -/
theorem C2_counterexample :
    (build_feed [otherFile, corruptFile] "/music" now0).2 =
      .error .tagOpen ∧
    Event.writeFeed "/music/feed.xml" ∉
      (build_feed [otherFile, corruptFile] "/music" now0).1 :=
  ⟨rfl, by decide⟩

/-! ## Claim C3 -/

/-- C3 (counterexample): an exception CAN propagate past the cover
resolver.  `ensure_cover` only catches `subprocess.CalledProcessError`;
when the `ffmpeg` executable is absent, `subprocess.run` raises
`FileNotFoundError`, which escapes to the caller. -/
theorem C3_counterexample :
    (ensure_cover ⟨true, [3], false, .absent⟩ "Song.mp3"
      "/music/covers").2 = .error () := rfl

/-! ## Claim C4 -/

/-- C4 (counterexample): the publish timestamp written to the feed does
NOT end with a numeric timezone-offset field.  The script formats naive
datetimes, for which `%z` renders as the empty string, so the feed entry
for `Other.mp3` carries `"Sat, 01 Apr 2023 00:00:00 "` — ending in a
space, with no `±ZZZZ` field. -/
theorem C4_counterexample :
    ((build_feed [otherFile] "/music" now0).2.toOption.map
        (fun its => its.map Item.pubDate) =
      some ["Sat, 01 Apr 2023 00:00:00 "]) ∧
    endsWithNumOffset "Sat, 01 Apr 2023 00:00:00 " = false :=
  ⟨rfl, rfl⟩

/-- C4 (amended): every publish timestamp the script derives is the
strftime of a naive datetime under `%a, %d %b %Y %H:%M:%S %z`, in which
`%z` is empty: the string ends with the space before `%z` and never ends
with a numeric timezone-offset field. -/
theorem C4_amended_thm (tag : Option String) (now : PyDateTime) (n : String) :
    endsWithNumOffset (derivePubDate tag now n).1 = false ∧
    ∃ p, (derivePubDate tag now n).1 = p ++ " " := by
  rcases tag with _ | s
  · exact ⟨endsWithNumOffset_strftimeFmt now, strftimePrefix now, rfl⟩
  · by_cases hs : s = ""
    · simp only [derivePubDate, hs, ne_eq, not_true_eq_false, if_false]
      exact ⟨endsWithNumOffset_strftimeFmt now, strftimePrefix now, rfl⟩
    · rcases hp : strptimeYmd s with _ | dt
      · simp only [derivePubDate, hs, ne_eq, not_false_eq_true, if_true, hp]
        exact ⟨endsWithNumOffset_strftimeFmt now, strftimePrefix now, rfl⟩
      · simp only [derivePubDate, hs, ne_eq, not_false_eq_true, if_true, hp]
        exact ⟨endsWithNumOffset_strftimeFmt dt, strftimePrefix dt, rfl⟩

/-! ## Claim C5 -/

/-- C5 (counterexample): a date tag that is NOT exactly in `YYYY-MM-DD`
form does not always trigger the fallback.  CPython's `strptime` accepts
unpadded month and day under `%m`/`%d`, so the tag `"2023-4-1"` parses
successfully: no warning is logged (empty event list) and the tag's own
date — not the wall-clock time — is used. -/
theorem C5_counterexample :
    derivePubDate (some "2023-4-1") now0 "Other.mp3" =
      ("Sat, 01 Apr 2023 00:00:00 ", []) ∧
    strftimeFmt now0 = "Wed, 01 Jan 2025 00:00:00 " :=
  ⟨rfl, rfl⟩

/-- C5 (amended): for every audio file whose date tag is absent, empty,
or rejected by `strptime("%Y-%m-%d")` (which tolerates unpadded month and
day), processing does not crash: a warning is logged, the wall-clock time
is substituted, and the episode is still produced with a non-empty
publish date (assuming the rest of per-file processing raises nothing,
i.e. the tag container opens and `ffmpeg` is not absent). -/
theorem C5_amended_thm (f : AudioFile) (dir : String) (now : PyDateTime)
    (h1 : f.tagsOk = true) (h2 : f.ffmpeg ≠ .absent)
    (h3 : f.easy.date = none ∨ f.easy.date = some "" ∨
      (∃ s, f.easy.date = some s ∧ s ≠ "" ∧ strptimeYmd s = none)) :
    ∃ ep, (get_episode_info f PODCAST_LINK dir now).2 = .ok ep ∧
      ep.pubDate = strftimeFmt now ∧ ep.pubDate ≠ "" ∧
      ∃ msg, Event.log .warning msg ∈ (get_episode_info f PODCAST_LINK dir now).1 := by
  obtain ⟨c, hc⟩ := ensure_cover_ok (coverEnvOf f) (clean_apostrophes f.name) dir
    (by simpa [coverEnvOf] using h2)
  obtain ⟨msg, hd⟩ : ∃ m, derivePubDate f.easy.date now (clean_apostrophes f.name) =
      (strftimeFmt now, [Event.log .warning m]) := by
    rcases h3 with h3 | h3 | ⟨s, hs, hne, hp⟩
    · exact ⟨"Missing date tag in " ++ clean_apostrophes f.name ++ ", using now.",
        by rw [h3]; rfl⟩
    · exact ⟨"Missing date tag in " ++ clean_apostrophes f.name ++ ", using now.",
        by rw [h3]; rfl⟩
    · refine ⟨"Invalid date tag in " ++ clean_apostrophes f.name ++ ", using now.", ?_⟩
      rw [hs]
      simp only [derivePubDate]
      rw [if_pos hne, hp]
  have hg2 : (get_episode_info f PODCAST_LINK dir now).2 = .ok
      { title := clean_apostrophes (f.easy.title.getD
          (splitextBase (clean_apostrophes f.name))),
        filename := clean_apostrophes f.name,
        link := PODCAST_LINK ++ pyQuote (clean_apostrophes f.name),
        pubDate := (derivePubDate f.easy.date now (clean_apostrophes f.name)).1,
        description := f.easy.comment.getD "",
        cover := c, size := f.size } := by
    simp only [get_episode_info, h1, Bool.not_true, Bool.false_eq_true, if_false]
    rw [hc]
  have hg1 : Event.log .warning msg ∈ (get_episode_info f PODCAST_LINK dir now).1 := by
    simp only [get_episode_info, h1, Bool.not_true, Bool.false_eq_true, if_false,
      List.append_assoc, List.mem_append]
    right
    right
    left
    rw [hd]
    exact List.mem_singleton.mpr rfl
  refine ⟨_, hg2, ?_, ?_, msg, hg1⟩
  · show (derivePubDate f.easy.date now (clean_apostrophes f.name)).1 = strftimeFmt now
    rw [hd]
  · show (derivePubDate f.easy.date now (clean_apostrophes f.name)).1 ≠ ""
    rw [hd]
    exact strftimeFmt_ne_empty now

/-- C5 (witness): the amended claim instantiated at a concrete file with
no date tag. -/
theorem C5_witness :
    ∃ ep, (get_episode_info noDateFile PODCAST_LINK "/d/covers" now0).2 = .ok ep ∧
      ep.pubDate = strftimeFmt now0 ∧ ep.pubDate ≠ "" ∧
      ∃ msg, Event.log .warning msg ∈
        (get_episode_info noDateFile PODCAST_LINK "/d/covers" now0).1 :=
  C5_amended_thm noDateFile "/d/covers" now0 rfl (by decide) (Or.inl rfl)

/-- C2 (amended): an unparsable tag container is fatal to the whole
batch, not skipped: whenever some `.mp3` file in the directory has a
corrupt container, `build_feed` propagates an exception (no feed items
are produced for any file) and `feed.xml` is never written. -/
theorem C2_amended_thm (files : List AudioFile) (dir : String)
    (now : PyDateTime) (f : AudioFile) (hf : f ∈ files)
    (hmp3 : isMp3Name f.name = true) (hbad : f.tagsOk = false) :
    (∃ e, (build_feed files dir now).2 = .error e) ∧
    ∀ p, Event.writeFeed p ∉ (build_feed files dir now).1 := by
  have hfm : f ∈ files.filter (fun g => isMp3Name g.name) :=
    List.mem_filter.mpr ⟨hf, hmp3⟩
  obtain ⟨e, he⟩ := processFiles_err (files.filter (fun g => isMp3Name g.name))
    (dir ++ "/" ++ EPISODE_ART_DIR) now f hfm hbad
  constructor
  · exact ⟨e, by simp only [build_feed, he]⟩
  · intro p
    simp only [build_feed, he]
    exact processFiles_no_writeFeed _ _ _ p

/-- C2 (witness): the amended claim instantiated on a directory holding
one healthy and one corrupt file. -/
theorem C2_witness :
    (∃ e, (build_feed [otherFile, corruptFile] "/music" now0).2 = .error e) ∧
    ∀ p, Event.writeFeed p ∉ (build_feed [otherFile, corruptFile] "/music" now0).1 :=
  C2_amended_thm [otherFile, corruptFile] "/music" now0 corruptFile
    (by decide) rfl rfl

/-- C3 (amended): as long as the `ffmpeg` executable exists, no exception
propagates past the cover resolver: the result is always `ok`; with no
embedded front cover it is `ok none` plus a warning-level log entry, and
with a front cover whose `ffmpeg` run exits non-zero it is `ok none` plus
an error-level log entry.  When the executable is absent, the
`FileNotFoundError` escapes (see the counterexample). -/
theorem C3_amended_thm (env : CoverEnv) (name dir : String)
    (h : env.ffmpeg ≠ .absent) :
    (∃ c, (ensure_cover env name dir).2 = .ok c) ∧
    (env.id3Ok = true → env.coverExists = false →
      env.apicTypes.contains 3 = false →
      (ensure_cover env name dir).2 = .ok none ∧
      (ensure_cover env name dir).1.any isWarnEv = true) ∧
    (env.id3Ok = true → env.coverExists = false →
      env.apicTypes.contains 3 = true → env.ffmpeg = .nonzeroExit →
      (ensure_cover env name dir).2 = .ok none ∧
      (ensure_cover env name dir).1.any isErrEv = true) := by
  refine ⟨ensure_cover_ok env name dir h, ?_, ?_⟩
  · intro h1 h2 h3
    have h3m : 3 ∉ env.apicTypes := by simpa using h3
    constructor
    · simp [ensure_cover, h1, h2, h3m]
    · simp [ensure_cover, h1, h2, h3m, isWarnEv]
  · intro h1 h2 h3 h4
    have h3m : 3 ∈ env.apicTypes := by simpa using h3
    constructor
    · simp [ensure_cover, h1, h2, h3m, h4]
    · simp [ensure_cover, h1, h2, h3m, h4, isErrEv]

/-- C3 (witness): the amended claim instantiated at an environment with a
front-cover frame whose `ffmpeg` run exits non-zero. -/
theorem C3_witness :
    (ensure_cover ⟨true, [0, 3], false, .nonzeroExit⟩ "Song.mp3"
      "/music/covers").2 = .ok none ∧
    (ensure_cover ⟨true, [0, 3], false, .nonzeroExit⟩ "Song.mp3"
      "/music/covers").1.any isErrEv = true :=
  (C3_amended_thm ⟨true, [0, 3], false, .nonzeroExit⟩ "Song.mp3"
    "/music/covers" (by decide)).2.2 rfl rfl rfl rfl

/-! ## Claim C6 -/

/-- C6: for every audio file whose name contains a curly apostrophe, the
file is renamed to the straight-apostrophe form exactly once (the event
trace of per-file processing contains exactly one rename, and it is the
very first event, before the tag container is read), and whenever an
episode is produced, its feed `link` and its enclosure URL both equal the
base link plus the percent-encoded normalized file name. -/
theorem C6_thm (f : AudioFile) (dir : String) (now : PyDateTime)
    (h : curlyApos ∈ f.name.data) :
    (get_episode_info f PODCAST_LINK dir now).1.head? =
      some (Event.rename f.name (clean_apostrophes f.name)) ∧
    (get_episode_info f PODCAST_LINK dir now).1.countP isRenameEv = 1 ∧
    ∀ ep, (get_episode_info f PODCAST_LINK dir now).2 = .ok ep →
      ep.filename = clean_apostrophes f.name ∧
      ep.link = PODCAST_LINK ++ pyQuote (clean_apostrophes f.name) ∧
      (mkItem ep).1.enclosureUrl =
        PODCAST_LINK ++ pyQuote (clean_apostrophes f.name) := by
  have hne : f.name ≠ clean_apostrophes f.name := name_ne_clean_of_curly f.name h
  have hre := renameEvsOf_of_ne f hne
  cases ht : f.tagsOk
  · refine ⟨?_, ?_, ?_⟩
    · simp only [get_episode_info, ht, Bool.not_false, if_true, hre]
      rfl
    · simp only [get_episode_info, ht, Bool.not_false, if_true, hre,
        List.countP_append, List.countP_cons, List.countP_nil, isRenameEv]
      rfl
    · intro ep hep
      rw [get_episode_info_err f PODCAST_LINK dir now ht] at hep
      cases hep
  · refine ⟨?_, ?_, ?_⟩
    · simp only [get_episode_info, ht, Bool.not_true, Bool.false_eq_true,
        if_false, hre, List.append_assoc, List.cons_append, List.head?_cons]
    · simp only [get_episode_info, ht, Bool.not_true, Bool.false_eq_true,
        if_false, hre, List.countP_append, List.countP_cons, List.countP_nil,
        derivePubDate_no_rename, ensure_cover_no_rename]
      rfl
    · intro ep hep
      simp only [get_episode_info, ht, Bool.not_true, Bool.false_eq_true,
        if_false] at hep
      rcases hc : (ensure_cover (coverEnvOf f) (clean_apostrophes f.name) dir).2
        with e | c
      · rw [hc] at hep
        cases hep
      · rw [hc] at hep
        injection hep with hep2
        rw [← hep2]
        exact ⟨rfl, rfl, rfl⟩

/-- C6 (witness): the theorem instantiated at a concrete file named with
a curly apostrophe. -/
theorem C6_witness :
    (get_episode_info curlyFile PODCAST_LINK "/d/covers" now0).1.head? =
      some (Event.rename curlyFile.name (clean_apostrophes curlyFile.name)) ∧
    (get_episode_info curlyFile PODCAST_LINK "/d/covers" now0).1.countP isRenameEv = 1 ∧
    ∀ ep, (get_episode_info curlyFile PODCAST_LINK "/d/covers" now0).2 = .ok ep →
      ep.filename = clean_apostrophes curlyFile.name ∧
      ep.link = PODCAST_LINK ++ pyQuote (clean_apostrophes curlyFile.name) ∧
      (mkItem ep).1.enclosureUrl =
        PODCAST_LINK ++ pyQuote (clean_apostrophes curlyFile.name) :=
  C6_thm curlyFile "/d/covers" now0 (by decide)

/-! ## Claim C7 -/

/-- C7 (counterexample): a cache hit does NOT short-circuit all other
I/O: `ensure_cover` opens the tag container (`ID3(mp3_path)`) before it
computes the cache path and checks existence; on a file whose container
cannot be opened, the cached name is not returned even though
`<base>.jpg` exists — the resolver returns no cover. -/
theorem C7_counterexample :
    (ensure_cover ⟨false, [], true, .success⟩ "Song.mp3"
      "/music/covers").2 = .ok none ∧
    (ensure_cover ⟨false, [], true, .success⟩ "Song.mp3"
      "/music/covers").2 ≠ .ok (some "Song.jpg") := by
  constructor
  · rfl
  · intro hcontra
    rw [show (ensure_cover ⟨false, [], true, .success⟩ "Song.mp3"
      "/music/covers").2 = .ok none from rfl] at hcontra
    injection hcontra with h2
    cases h2

/-- C7 (amended): when the tag container opens successfully and
`<base>.jpg` already exists in the cache directory, the resolver returns
that name, and its whole event trace is the tag-container read followed
by the existence check: no `ffmpeg` invocation, no temporary file, no
other write — so a second run re-derives nothing. -/
theorem C7_amended_thm (env : CoverEnv) (name dir : String)
    (h1 : env.id3Ok = true) (h2 : env.coverExists = true) :
    ensure_cover env name dir =
      ([Event.readTags name,
        Event.existsCheck (dir ++ "/" ++ (splitextBase name ++ ".jpg"))],
       .ok (some (splitextBase name ++ ".jpg"))) := by
  simp [ensure_cover, h1, h2]

/-- C7 (witness): the amended claim instantiated at a cached cover. -/
theorem C7_witness :
    ensure_cover ⟨true, [], true, .success⟩ "Song.mp3" "/music/covers" =
      ([Event.readTags "Song.mp3",
        Event.existsCheck ("/music/covers" ++ "/" ++
          (splitextBase "Song.mp3" ++ ".jpg"))],
       .ok (some (splitextBase "Song.mp3" ++ ".jpg"))) :=
  C7_amended_thm ⟨true, [], true, .success⟩ "Song.mp3" "/music/covers" rfl rfl

/-! ## Claim C9 -/

/-- C9: whenever the cover-extraction branch runs `ffmpeg` and it exits
with non-zero status, the temporary file `<base>_tmp` written into the
cache directory is left behind: the trace contains the temp write but no
temp removal (deletion happens only in the success branch), and the
resolver returns no cover. -/
theorem C9_thm (env : CoverEnv) (name dir : String)
    (h1 : env.id3Ok = true) (h2 : env.coverExists = false)
    (h3 : env.apicTypes.contains 3 = true) (h4 : env.ffmpeg = .nonzeroExit) :
    Event.writeTemp (dir ++ "/" ++ splitextBase name ++ "_tmp") ∈
      (ensure_cover env name dir).1 ∧
    Event.removeTemp (dir ++ "/" ++ splitextBase name ++ "_tmp") ∉
      (ensure_cover env name dir).1 ∧
    (ensure_cover env name dir).2 = .ok none := by
  have h3m : 3 ∈ env.apicTypes := by simpa using h3
  refine ⟨?_, ?_, ?_⟩
  · simp [ensure_cover, h1, h2, h3m, h4]
  · simp [ensure_cover, h1, h2, h3m, h4]
  · simp [ensure_cover, h1, h2, h3m, h4]

/-- C9 (witness): the theorem instantiated at a concrete environment. -/
theorem C9_witness :
    Event.writeTemp ("/music/covers" ++ "/" ++ splitextBase "Song.mp3" ++ "_tmp") ∈
      (ensure_cover ⟨true, [3], false, .nonzeroExit⟩ "Song.mp3" "/music/covers").1 ∧
    Event.removeTemp ("/music/covers" ++ "/" ++ splitextBase "Song.mp3" ++ "_tmp") ∉
      (ensure_cover ⟨true, [3], false, .nonzeroExit⟩ "Song.mp3" "/music/covers").1 ∧
    (ensure_cover ⟨true, [3], false, .nonzeroExit⟩ "Song.mp3" "/music/covers").2 =
      .ok none :=
  C9_thm ⟨true, [3], false, .nonzeroExit⟩ "Song.mp3" "/music/covers" rfl rfl rfl rfl

/-! ## Claim C10 -/

/-- C10: `feed.xml` is serialized only after every listed audio file has
been processed: if per-file processing raises (the run fails), the trace
of `build_feed` contains no feed write at all, so a pre-existing
`feed.xml` is left unchanged. -/
theorem C10_thm (files : List AudioFile) (dir : String) (now : PyDateTime)
    (e : RunError) (h : (build_feed files dir now).2 = .error e) :
    ∀ p, Event.writeFeed p ∉ (build_feed files dir now).1 := by
  intro p
  rcases hp : (processFiles (files.filter (fun g => isMp3Name g.name))
      (dir ++ "/" ++ EPISODE_ART_DIR) now).2 with e2 | eps
  · simp only [build_feed, hp]
    exact processFiles_no_writeFeed _ _ _ p
  · simp only [build_feed, hp] at h
    cases h

/-- C10 (witness): the theorem instantiated on a directory with one
corrupt file. -/
theorem C10_witness :
    Event.writeFeed "/d/feed.xml" ∉ (build_feed [corruptFile] "/d" now0).1 :=
  C10_thm [corruptFile] "/d" now0 .tagOpen rfl "/d/feed.xml"

/-! ## Claim C8 -/

/-- C8: every item the feed emits has guid text equal to its enclosure
URL, the fixed `audio/mpeg` enclosure content-type, an enclosure URL
equal to the base link plus the percent-encoded file name, and an
enclosure length equal to the episode file's byte size on disk, or `0`
together with a logged warning when the size is unreadable. -/
theorem C8_thm (files : List AudioFile) (dir : String) (now : PyDateTime)
    (items : List Item) (h : (build_feed files dir now).2 = .ok items)
    (it : Item) (hit : it ∈ items) :
    it.guid = it.enclosureUrl ∧ it.enclosureType = "audio/mpeg" ∧
    ∃ ep : Episode, it = (mkItem ep).1 ∧
      it.enclosureUrl = PODCAST_LINK ++ pyQuote ep.filename ∧
      ((∃ n, ep.size = some n ∧ it.enclosureLength = n) ∨
       (ep.size = none ∧ it.enclosureLength = 0 ∧
        (mkItem ep).2 =
          [Event.log .warning ("Could not get file size for " ++ ep.filename)])) := by
  rcases hp : (processFiles (files.filter (fun g => isMp3Name g.name))
      (dir ++ "/" ++ EPISODE_ART_DIR) now).2 with e | eps
  · simp only [build_feed, hp] at h
    cases h
  · simp only [build_feed, hp] at h
    injection h with h2
    rw [← h2] at hit
    simp only [List.map_map, List.mem_map] at hit
    obtain ⟨ep, _, hep⟩ := hit
    rw [← hep]
    refine ⟨mkItem_guid ep, mkItem_type ep, ep, rfl, mkItem_url ep, ?_⟩
    rcases mkItem_length ep with hl | hl
    · exact Or.inl hl
    · exact Or.inr hl

/-- C8 (witness): the theorem instantiated on the feed built from the
spec's example file `Song.mp3`. -/
theorem C8_witness :
    songItem.guid = songItem.enclosureUrl ∧
    songItem.enclosureType = "audio/mpeg" ∧
    ∃ ep : Episode, songItem = (mkItem ep).1 ∧
      songItem.enclosureUrl = PODCAST_LINK ++ pyQuote ep.filename ∧
      ((∃ n, ep.size = some n ∧ songItem.enclosureLength = n) ∨
       (ep.size = none ∧ songItem.enclosureLength = 0 ∧
        (mkItem ep).2 =
          [Event.log .warning ("Could not get file size for " ++ ep.filename)])) :=
  C8_thm [songFile] "/d" now0 [songItem] rfl songItem (by simp)
